import Mathlib

/-!
Verification development for the SafeMask wallet contracts
(`src/assets/contracts/rust/privacy_bridge.rs` and
`src/assets/contracts/rust/confidential_swap.rs`).

Machine integers are modelled as `Nat` with explicit bounds: `u64` values
are kept below `2 ^ 64` by the checked operations, `u8` below `256`, and the
`as u64` narrowing casts of the source are modelled as `% 2 ^ 64`.  Fallible
Rust code (`Result`, `require!`, checked arithmetic, panics) is modelled with
`Except`.  Anchor account initialization (`init` attribute) happens before
the instruction body runs and fails when the account already exists; it is
modelled as an explicit lookup in an association list keyed by the account
address chosen by the caller.  External collaborators (SPL token transfers)
abort the operation on failure; this development models the successful
transfer path, which is the one all claims are about.
-/

/-- Bound of `u64` arithmetic: `2 ^ 64`. -/
def U64LIM : Nat := 18446744073709551616

/-- Largest `u64` value, used as the range bound `u64::MAX` passed to the
range-proof verifier. -/
def U64MAX : Nat := U64LIM - 1

/-- Lookup in an association list keyed by account address. -/
def alookup {α : Type} : List (Nat × α) → Nat → Option α
  | [], _ => none
  | (k, v) :: rest, key => if key = k then some v else alookup rest key

/-- In-place update of an association list entry. -/
def aupdate {α : Type} : List (Nat × α) → Nat → α → List (Nat × α)
  | [], _, _ => []
  | (k, v) :: rest, key, nv =>
      if key = k then (k, nv) :: rest else (k, v) :: aupdate rest key nv

namespace PrivacyBridge

/-- Error outcomes of the bridge program: the `ErrorCode` enum of
`privacy_bridge.rs` plus the Anchor account-machinery failures
(`AccountInUse` for `init` on an existing account, `AccountNotFound` for a
missing account). -/
inductive Err where
  | BridgePaused
  | InvalidState
  | InsufficientConfirmations
  | NullifierUsed
  | InvalidProof
  | NotActiveRelayer
  | ArithmeticOverflow
  | FeeTooHigh
  | AccountInUse
  | AccountNotFound
deriving DecidableEq

/-- The `TransactionState` enum of `privacy_bridge.rs`. -/
inductive TransactionState where
  | Pending
  | Locked
  | Relayed
  | Completed
  | Refunded
  | Failed
deriving DecidableEq

/-- The `ZkProof` struct: three fixed-size byte arrays of length 64, 128
and 64.  The fixed sizes are carried as subtype proofs, mirroring the Rust
array types `[u8; 64]`, `[u8; 128]`, `[u8; 64]`. -/
structure ZkProof where
  a : { l : List Nat // l.length = 64 }
  b : { l : List Nat // l.length = 128 }
  c : { l : List Nat // l.length = 64 }

/-- The `Bridge` singleton account. -/
structure Bridge where
  authority : Nat
  min_confirmations : Nat
  bridge_fee : Nat
  total_locked : Nat
  total_unlocked : Nat
  paused : Bool
deriving DecidableEq

/-- The `BridgeTransaction` account.  Hash-derived 32-byte values (`id`,
`commitment`) and the other 32-byte fields are modelled as opaque `Nat`
values, since the bridge never inspects their bytes. -/
structure BridgeTransaction where
  id : Nat
  source_chain : Nat
  target_chain : Nat
  sender : Nat
  recipient_commitment : Nat
  amount : Nat
  commitment : Nat
  nullifier : Nat
  timestamp : Int
  state : TransactionState
  confirmations : Nat
deriving DecidableEq

/-- The `NullifierAccount` account. -/
structure NullifierAccount where
  nullifier : Nat
  used : Bool
  timestamp : Int
deriving DecidableEq

/-- The `Relayer` account. -/
structure Relayer where
  authority : Nat
  active : Bool
  total_relayed : Nat
  slashed : Bool
deriving DecidableEq

/-- Checked `u64` addition (`checked_add` + `ok_or(ArithmeticOverflow)`). -/
def addU64 (a b : Nat) : Except Err Nat :=
  if a + b < U64LIM then .ok (a + b) else .error .ArithmeticOverflow

/-- Checked `u64` subtraction (`checked_sub` + `ok_or(ArithmeticOverflow)`). -/
def subU64 (a b : Nat) : Except Err Nat :=
  if b ≤ a then .ok (a - b) else .error .ArithmeticOverflow

/-- Checked `u8` addition (`checked_add` + `ok_or(ArithmeticOverflow)`). -/
def addU8 (a b : Nat) : Except Err Nat :=
  if a + b < 256 then .ok (a + b) else .error .ArithmeticOverflow

/-- Injective encoding of a timestamp into a `Nat`, for feeding `Int`
inputs to the hash stand-ins below. -/
def encodeTs (t : Int) : Nat :=
  2 * t.natAbs + (if 0 ≤ t then 0 else 1)

/-- Modelled from the spec: `generate_commitment` derives "a value
commitment as a hash over (recipientCommitment, netAmount)" using keccak,
which lives in an external crate, not under `src/`.  The bridge never
inspects the resulting bytes, so the hash is modelled as an injective
executable pairing. -/
def generate_commitment (recipient : Nat) (amount : Nat) : Nat :=
  Nat.pair recipient amount

/-- Modelled from the spec: `generate_tx_id` derives "a deterministic
transaction id as a collision-resistant hash over (sender, targetChain,
recipientCommitment, timestamp)" using keccak (external crate, not under
`src/`); modelled as an injective executable pairing. -/
def generate_tx_id (sender target_chain recipient : Nat) (timestamp : Int) : Nat :=
  Nat.pair sender (Nat.pair target_chain (Nat.pair recipient (encodeTs timestamp)))

/-- The `verify_proof` helper of `privacy_bridge.rs`: builds the public
inputs (unused) and checks that the lengths of the three fixed-size proof
arrays equal their declared sizes. -/
def verify_proof (proof : ZkProof) (commitment : Nat) (nullifier : Nat)
    (amount : Nat) : Except Err Bool :=
  .ok ((proof.a.val.length == 64) && (proof.b.val.length == 128) &&
       (proof.c.val.length == 64))

/-- The bridge system state: the `Bridge` singleton plus the account space
of `BridgeTransaction` and `NullifierAccount` accounts, keyed by the
caller-chosen account address. -/
structure BridgeSys where
  bridge : Bridge
  txs : List (Nat × BridgeTransaction)
  nullAccs : List (Nat × NullifierAccount)

/-- The `BridgeTransaction` record that `lock_assets` stores: `Locked`
state, zero confirmations, zero nullifier. -/
def lockTxRecord (sender target_chain recipient_commitment net_amount : Nat)
    (now : Int) : BridgeTransaction :=
  { id := generate_tx_id sender target_chain recipient_commitment now
    source_chain := 1
    target_chain := target_chain
    sender := sender
    recipient_commitment := recipient_commitment
    amount := net_amount
    commitment := generate_commitment recipient_commitment net_amount
    nullifier := 0
    timestamp := now
    state := .Locked
    confirmations := 0 }

/-- The `lock_assets` instruction.  The `bridge_tx` account is created with
the Anchor `init` attribute, so the call fails if the chosen address is
already in use; the token transfer-in is the external collaborator and is
modelled on its success path.  The fee is computed in `u128` and narrowed
with `as u64` (modelled as `% U64LIM`). -/
def lock_assets (sys : BridgeSys) (txAddr user amount target_chain
    recipient_commitment : Nat) (now : Int) : Except Err BridgeSys :=
  if (alookup sys.txs txAddr).isSome then .error .AccountInUse else
  if sys.bridge.paused then .error .BridgePaused else
  let fee := (amount * sys.bridge.bridge_fee / 10000) % U64LIM
  do
    let net ← subU64 amount fee
    let tl ← addU64 sys.bridge.total_locked net
    .ok { sys with
          bridge := { sys.bridge with total_locked := tl }
          txs := (txAddr, lockTxRecord user target_chain recipient_commitment net now)
                   :: sys.txs }

/-- The `unlock_assets` instruction.  The `nullifier_account` is created
with the Anchor `init` attribute at a caller-chosen address (the account is
not derived from the nullifier value): the init runs before the instruction
body, fails if that address is already in use, and otherwise yields a
zeroed account with `used = false`.  The token transfer-out is the external
collaborator, modelled on its success path. -/
def unlock_assets (sys : BridgeSys) (txAddr nullAddr : Nat) (proof : ZkProof)
    (nullifier : Nat) (now : Int) : Except Err BridgeSys :=
  match alookup sys.txs txAddr with
  | none => .error .AccountNotFound
  | some tx =>
    if (alookup sys.nullAccs nullAddr).isSome then .error .AccountInUse else
    let nullAcc : NullifierAccount := { nullifier := 0, used := false, timestamp := 0 }
    if sys.bridge.paused then .error .BridgePaused else
    if tx.state ≠ .Locked then .error .InvalidState else
    if tx.confirmations < sys.bridge.min_confirmations then
      .error .InsufficientConfirmations else
    if nullAcc.used then .error .NullifierUsed else
    do
      let ok ← verify_proof proof tx.commitment nullifier tx.amount
      if ¬ ok then .error .InvalidProof else
      let nullAcc' : NullifierAccount :=
        { nullifier := nullifier, used := true, timestamp := now }
      let tx' := { tx with nullifier := nullifier, state := .Completed }
      let tu ← addU64 sys.bridge.total_unlocked tx.amount
      .ok { bridge := { sys.bridge with total_unlocked := tu }
            txs := aupdate sys.txs txAddr tx'
            nullAccs := (nullAddr, nullAcc') :: sys.nullAccs }

/-- The `relay_transaction` instruction, acting on the bridge singleton,
the calling relayer's account and one `BridgeTransaction`: requires an
active relayer and a `Locked` transaction, increments the confirmation
count with checked `u8` arithmetic, and sets the state to `Relayed` once
the new count reaches `min_confirmations`. -/
def relay_transaction (bridge : Bridge) (relayer : Relayer)
    (tx : BridgeTransaction) : Except Err BridgeTransaction :=
  if ¬ relayer.active then .error .NotActiveRelayer else
  if tx.state ≠ .Locked then .error .InvalidState else
  do
    let c ← addU8 tx.confirmations 1
    let st := if bridge.min_confirmations ≤ c then TransactionState.Relayed
              else tx.state
    .ok { tx with confirmations := c, state := st }

/-- Effect of one `relay_transaction` call on a transaction: a failed
Solana instruction leaves every account unchanged. -/
def relayOr (bridge : Bridge) (relayer : Relayer) (tx : BridgeTransaction) :
    BridgeTransaction :=
  match relay_transaction bridge relayer tx with
  | .ok t => t
  | .error _ => tx

/-- Effect of a sequence of `relay_transaction` calls (by arbitrary
relayers, failures included) on one transaction.  No bridge instruction
ever changes `min_confirmations`, and `relay_transaction` reads the bridge
only through that field, so a single `bridge` value is threaded through. -/
def applyRelays (bridge : Bridge) (rs : List Relayer)
    (tx : BridgeTransaction) : BridgeTransaction :=
  rs.foldl (fun t r => relayOr bridge r t) tx

end PrivacyBridge

namespace ConfidentialSwap

/-- Error outcomes of the swap program: the `ErrorCode` enum of
`confidential_swap.rs`, plus `DivByZeroPanic`, which models the Rust
runtime panic on integer division by zero (an aborted transaction, not a
returned `ErrorCode`). -/
inductive Err where
  | SwapPaused
  | PoolNotInitialized
  | InvalidProof
  | InsufficientLiquidity
  | NotSwapOwner
  | AlreadyExecuted
  | RevealTooEarly
  | SwapExpired
  | SlippageExceeded
  | ArithmeticOverflow
  | DivByZeroPanic
deriving DecidableEq

/-- A 32-byte commitment (`[u8; 32]`), byte-addressable because the swap
program reads individual bytes of its reserve commitments. -/
def Commit32 : Type := Fin 32 → Fin 256

/-- The `BulletproofProof` struct: six fixed-size 32-byte arrays plus a
variable-length `inner_product` vector. -/
structure BulletproofProof where
  a : { l : List Nat // l.length = 32 }
  s : { l : List Nat // l.length = 32 }
  t1 : { l : List Nat // l.length = 32 }
  t2 : { l : List Nat // l.length = 32 }
  taux : { l : List Nat // l.length = 32 }
  mu : { l : List Nat // l.length = 32 }
  inner_product : List Nat

/-- The `SwapConfig` singleton account. -/
structure SwapConfig where
  authority : Nat
  swap_fee : Nat
  paused : Bool
  total_pools : Nat
deriving DecidableEq

/-- The `Pool` account. -/
structure Pool where
  token_a : Nat
  token_b : Nat
  reserve_a_commitment : Commit32
  reserve_b_commitment : Commit32
  total_supply : Nat
  initialized : Bool

/-- The `LiquidityPosition` account. -/
structure LiquidityPosition where
  pool : Nat
  user : Nat
  liquidity : Nat
deriving DecidableEq

/-- The `SwapCommitment` account. -/
structure SwapCommitment where
  user : Nat
  pool : Nat
  input_commitment : Commit32
  output_commitment : Commit32
  timestamp : Int
  revealed : Bool
  executed : Bool

/-- The `MINIMUM_LIQUIDITY` constant. -/
def MINIMUM_LIQUIDITY : Nat := 1000

/-- Checked `u64` addition (`checked_add` + `ok_or(ArithmeticOverflow)`). -/
def addU64 (a b : Nat) : Except Err Nat :=
  if a + b < U64LIM then .ok (a + b) else .error .ArithmeticOverflow

/-- Checked `u64` subtraction (`checked_sub` + `ok_or(ArithmeticOverflow)`). -/
def subU64 (a b : Nat) : Except Err Nat :=
  if b ≤ a then .ok (a - b) else .error .ArithmeticOverflow

/-- The `add_commitments` helper: byte-wise wrapping addition
(`u8::wrapping_add`). -/
def add_commitments (c1 c2 : Commit32) : Commit32 :=
  fun i => c1 i + c2 i

/-- The `subtract_commitments` helper: byte-wise wrapping subtraction
(`u8::wrapping_sub`). -/
def subtract_commitments (c1 c2 : Commit32) : Commit32 :=
  fun i => c1 i - c2 i

/-- The `verify_range_proof` helper of `confidential_swap.rs`: checks that
the lengths of the fixed-size proof arrays `a`, `s`, `t1`, `t2` equal 32. -/
def verify_range_proof (commitment : Commit32) (proof : BulletproofProof)
    (lo hi : Nat) : Except Err Bool :=
  .ok ((proof.a.val.length == 32) && (proof.s.val.length == 32) &&
       (proof.t1.val.length == 32) && (proof.t2.val.length == 32))

/-- The `calculate_output_amount` helper: `u128` arithmetic
`amount_in_with_fee = amount_in * 997 / 1000`,
`numerator = amount_in_with_fee * reserve_out`,
`denominator = reserve_in * 1000 + amount_in_with_fee`, and the quotient is
narrowed with `as u64`.  A zero denominator is the Rust division-by-zero
panic. -/
def calculate_output_amount (amount_in reserve_in reserve_out : Nat) :
    Except Err Nat :=
  let amount_in_with_fee := amount_in * 997 / 1000
  let numerator := amount_in_with_fee * reserve_out
  let denominator := reserve_in * 1000 + amount_in_with_fee
  if denominator = 0 then .error .DivByZeroPanic
  else .ok ((numerator / denominator) % U64LIM)

/-- The exact (untruncated `u128`) subsequent-provider liquidity value
computed by `add_liquidity`:
`min(amount_a * total_supply / reserve_a_commitment[0],
     amount_b * total_supply / reserve_b_commitment[0])`. -/
def subsequentLiquidityExact (amount_a amount_b supply ra0 rb0 : Nat) : Nat :=
  min (amount_a * supply / ra0) (amount_b * supply / rb0)

/-- Floor integer square root by the classic digit-pair recurrence, with a
structural fuel argument (64 suffices for any `u128` value). -/
def isqrtFuel : Nat → Nat → Nat
  | 0, _ => 0
  | f + 1, n =>
    if n < 2 then n
    else
      let r := 2 * isqrtFuel f (n / 4)
      if (r + 1) * (r + 1) ≤ n then r + 1 else r

/-- Modelled from the spec: the source computes the first-provider square
root as `((amount_a as u128 * amount_b as u128) as f64).sqrt() as u64`
(`confidential_swap.rs:114`); IEEE double-precision rounding is not
representable in this embedding, and the spec specifies the value as
`floor(sqrt(amountA*amountB))`, modelled here as the exact floor integer
square root. -/
def sqrtViaF64 (n : Nat) : Nat := isqrtFuel 64 n

/-- The zero commitment `[0; 32]`. -/
def zeroCommit : Commit32 := fun _ => 0

/-- Result of `create_pool`: the updated config and the new pool account. -/
structure CreateOut where
  config : SwapConfig
  pool : Pool

/-- The `create_pool` instruction: fails if paused, initializes the pool
with zeroed reserve commitments and zero supply, and increments the pool
counter with checked arithmetic. -/
def create_pool (config : SwapConfig) (token_a token_b : Nat) :
    Except Err CreateOut :=
  if config.paused then .error .SwapPaused else
  do
    let tp ← addU64 config.total_pools 1
    .ok { config := { config with total_pools := tp }
          pool := { token_a := token_a, token_b := token_b
                    reserve_a_commitment := zeroCommit
                    reserve_b_commitment := zeroCommit
                    total_supply := 0, initialized := true } }

/-- Result of `add_liquidity`: updated pool, updated position, and the
minted liquidity amount. -/
structure AddLiqOut where
  pool : Pool
  position : LiquidityPosition
  minted : Nat

/-- The `add_liquidity` instruction.  Both range proofs are verified, the
two token transfers-in are the external collaborator (success path), the
minted liquidity is computed from the first bytes of the reserve
commitments for subsequent providers (`u128` division panics on a zero
divisor; the result is narrowed with `as u64`), or from the square root of
the deposit product minus `MINIMUM_LIQUIDITY` for the first provider
(`checked_sub` + `ok_or(InsufficientLiquidity)`); the reserve commitments
are combined homomorphically and the supply and position are increased
under checked arithmetic. -/
def add_liquidity (config : SwapConfig) (pool : Pool)
    (position : LiquidityPosition) (poolId user : Nat)
    (amount_a amount_b : Nat) (amount_a_commitment amount_b_commitment : Commit32)
    (proof_a proof_b : BulletproofProof) : Except Err AddLiqOut :=
  if config.paused then .error .SwapPaused else
  if ¬ pool.initialized then .error .PoolNotInitialized else
  do
    let va ← verify_range_proof amount_a_commitment proof_a 0 U64MAX
    if ¬ va then .error .InvalidProof else
    do
    let vb ← verify_range_proof amount_b_commitment proof_b 0 U64MAX
    if ¬ vb then .error .InvalidProof else
    do
    let liquidity ←
      if pool.total_supply = 0 then
        let s := sqrtViaF64 (amount_a * amount_b)
        if MINIMUM_LIQUIDITY ≤ s then Except.ok (s - MINIMUM_LIQUIDITY)
        else Except.error Err.InsufficientLiquidity
      else
        let ra0 := (pool.reserve_a_commitment 0).val
        let rb0 := (pool.reserve_b_commitment 0).val
        let lq := subsequentLiquidityExact amount_a amount_b pool.total_supply ra0 rb0
        if ra0 = 0 ∨ rb0 = 0 then Except.error Err.DivByZeroPanic
        else Except.ok (lq % U64LIM)
    if liquidity = 0 then .error .InsufficientLiquidity else
    do
    let ts ← addU64 pool.total_supply liquidity
    let pl ← addU64 position.liquidity liquidity
    .ok { pool :=
            { pool with
              reserve_a_commitment :=
                add_commitments pool.reserve_a_commitment amount_a_commitment
              reserve_b_commitment :=
                add_commitments pool.reserve_b_commitment amount_b_commitment
              total_supply := ts }
          position := { pool := poolId, user := user, liquidity := pl }
          minted := liquidity }

/-- Result of `execute_swap`: updated swap commitment, updated pool, and
the computed output amount. -/
structure ExecOut where
  swap : SwapCommitment
  pool : Pool
  amount_out : Nat

/-- The `execute_swap` instruction, in source order: paused check, owner
check, already-executed check, the two timing-window checks, range-proof
verification, protocol fee (`u128` product narrowed with `as u64`),
checked fee subtraction, constant-product output from the first bytes of
the reserve commitments, slippage check, the two token transfers (external
collaborator, success path), homomorphic reserve updates, and the
`revealed`/`executed` flags. -/
def execute_swap (config : SwapConfig) (swap : SwapCommitment) (pool : Pool)
    (user : Nat) (now : Int) (amount_in min_amount_out : Nat)
    (proof : BulletproofProof) : Except Err ExecOut :=
  if config.paused then .error .SwapPaused else
  if swap.user ≠ user then .error .NotSwapOwner else
  if swap.executed then .error .AlreadyExecuted else
  if now < swap.timestamp + 60 then .error .RevealTooEarly else
  if swap.timestamp + 600 < now then .error .SwapExpired else
  do
    let v ← verify_range_proof swap.input_commitment proof 0 U64MAX
    if ¬ v then .error .InvalidProof else
    do
    let fee := (amount_in * config.swap_fee / 10000) % U64LIM
    let amount_in_with_fee ← subU64 amount_in fee
    let amount_out ← calculate_output_amount amount_in_with_fee
      (pool.reserve_a_commitment 0).val (pool.reserve_b_commitment 0).val
    if amount_out < min_amount_out then .error .SlippageExceeded else
    .ok { swap := { swap with revealed := true, executed := true }
          pool :=
            { pool with
              reserve_a_commitment :=
                add_commitments pool.reserve_a_commitment swap.input_commitment
              reserve_b_commitment :=
                subtract_commitments pool.reserve_b_commitment swap.output_commitment }
          amount_out := amount_out }

/-- Result of `remove_liquidity`: updated pool, updated position, and the
two withdrawal amounts (narrowed with `as u64` as in the emitted event). -/
structure RemoveOut where
  pool : Pool
  position : LiquidityPosition
  amount_a : Nat
  amount_b : Nat

/-- The `remove_liquidity` instruction: requires the position to cover the
requested amount, computes pro-rata withdrawal amounts by `u128` division
by `total_supply` (a zero supply is the Rust division-by-zero panic), and
decrements supply and position under checked arithmetic. -/
def remove_liquidity (pool : Pool) (position : LiquidityPosition)
    (liquidity : Nat) : Except Err RemoveOut :=
  if position.liquidity < liquidity then .error .InsufficientLiquidity else
  if pool.total_supply = 0 then .error .DivByZeroPanic else
  let amount_a := liquidity * (pool.reserve_a_commitment 0).val / pool.total_supply
  let amount_b := liquidity * (pool.reserve_b_commitment 0).val / pool.total_supply
  do
    let ts ← subU64 pool.total_supply liquidity
    let pl ← subU64 position.liquidity liquidity
    .ok { pool := { pool with total_supply := ts }
          position := { position with liquidity := pl }
          amount_a := amount_a % U64LIM
          amount_b := amount_b % U64LIM }

/-- The amount-out formula as the spec words it:
`floor(amountInAfterFee*997*reserveOut / (reserveIn*1000 + amountInAfterFee*997))`.
Stated for comparison with `calculate_output_amount`. -/
def amountOutSpecFormula (amountInAfterFee reserveIn reserveOut : Nat) : Nat :=
  amountInAfterFee * 997 * reserveOut /
    (reserveIn * 1000 + amountInAfterFee * 997)

/-- The subsequent-provider minted liquidity as the spec words it:
`min(amountA*supply/reserveA, amountB*supply/reserveB)` computed from the
pool's actual token reserves.  Stated for comparison with the
commitment-byte computation of `add_liquidity`. -/
def liquidityFromActualReserves (amountA amountB supply reserveA reserveB : Nat) :
    Nat :=
  min (amountA * supply / reserveA) (amountB * supply / reserveB)

/-- A well-formed `BulletproofProof` value (all-zero bytes). -/
def bp0 : BulletproofProof :=
  { a := ⟨List.replicate 32 0, by simp⟩
    s := ⟨List.replicate 32 0, by simp⟩
    t1 := ⟨List.replicate 32 0, by simp⟩
    t2 := ⟨List.replicate 32 0, by simp⟩
    taux := ⟨List.replicate 32 0, by simp⟩
    mu := ⟨List.replicate 32 0, by simp⟩
    inner_product := [] }

/-- A commitment whose 32 bytes are all `1`. -/
def oneCommit : Commit32 := fun _ => 1

/-- A swap configuration with zero protocol fee, not paused. -/
def cfgSwap0 : SwapConfig :=
  { authority := 1, swap_fee := 0, paused := false, total_pools := 0 }

/-- A fresh liquidity position. -/
def pos0 : LiquidityPosition := { pool := 55, user := 9, liquidity := 0 }

/-- A pool with total supply `2^32` whose reserve-commitment first bytes
are both `1`. -/
def pool4 : Pool :=
  { token_a := 11, token_b := 12, reserve_a_commitment := oneCommit
    reserve_b_commitment := oneCommit, total_supply := 4294967296
    initialized := true }

/-- A commitment whose 32 bytes are all `232` (`1000 mod 256`). -/
def c232 : Commit32 := fun _ => 232

/-- A commitment whose 32 bytes are all `208` (`2000 mod 256`). -/
def c208 : Commit32 := fun _ => 208

/-- A pool with total supply `1000` whose reserve-commitment first bytes
are `232` and `208`. -/
def pool5 : Pool :=
  { token_a := 11, token_b := 12, reserve_a_commitment := c232
    reserve_b_commitment := c208, total_supply := 1000, initialized := true }

/-- A pool with nonzero supply and reserve-commitment first bytes `100`
and `200`, used for swap-execution scenarios. -/
def pool8 : Pool :=
  { token_a := 11, token_b := 12, reserve_a_commitment := fun _ => 100
    reserve_b_commitment := fun _ => 200, total_supply := 5000
    initialized := true }

/-- A swap commitment by user `7` created at time `1000`. -/
def swap8 : SwapCommitment :=
  { user := 7, pool := 55, input_commitment := oneCommit
    output_commitment := oneCommit, timestamp := 1000, revealed := false
    executed := false }

/-- Reachable trace hitting the `add_liquidity` division by zero:
`create_pool` zeroes the reserve commitments, the first provider supplies
commitments whose first byte is `0` (so they stay `0`), and the next
`add_liquidity` divides by that byte. -/
def c10trace : Except Err Nat := do
  let c ← create_pool cfgSwap0 11 12
  let a1 ← add_liquidity c.config c.pool pos0 55 9 1000000 1000000
    zeroCommit zeroCommit bp0 bp0
  let a2 ← add_liquidity c.config a1.pool a1.position 55 9 5 5
    zeroCommit zeroCommit bp0 bp0
  .ok a2.minted

/-- Reachable trace hitting the `remove_liquidity` division by zero: a
freshly created pool has `total_supply = 0`, and any `remove_liquidity`
call (here for `0` liquidity, which every position covers) divides by it. -/
def c10removeTrace : Except Err RemoveOut := do
  let c ← create_pool cfgSwap0 11 12
  remove_liquidity c.pool pos0 0

end ConfidentialSwap

namespace PrivacyBridge

/-- A well-formed `ZkProof` value (all-zero bytes). -/
def zkProof0 : ZkProof :=
  ⟨⟨List.replicate 64 0, by simp⟩, ⟨List.replicate 128 0, by simp⟩,
   ⟨List.replicate 64 0, by simp⟩⟩

/-- A freshly initialized bridge with `min_confirmations = 0` and zero
fee (both accepted by `initialize`, which validates neither). -/
def bridgeSys0 : BridgeSys := ⟨⟨1, 0, 0, 0, 0, false⟩, [], []⟩

/-- Double-spend trace: two locks of 100 each, then two unlocks presenting
the same nullifier value `7`, each with a fresh caller-chosen nullifier
account (addresses 11 and 12). -/
def doubleUnlockTrace : Except Err BridgeSys := do
  let s1 ← lock_assets bridgeSys0 1 10 100 2 5 1000
  let s2 ← lock_assets s1 2 10 100 2 5 1001
  let s3 ← unlock_assets s2 1 11 zkProof0 7 1010
  unlock_assets s3 2 12 zkProof0 7 1020

/-- An active, unslashed relayer. -/
def relayerA : Relayer := ⟨3, true, 0, false⟩

/-- A bridge configured with `min_confirmations = 1`. -/
def bridge6 : Bridge := ⟨1, 1, 0, 0, 0, false⟩

/-- A freshly locked transaction. -/
def tx6 : BridgeTransaction := lockTxRecord 10 2 5 100 1000

/-- The transaction after one successful relay under `bridge6`: one
confirmation, state `Relayed`. -/
def tx6r : BridgeTransaction := relayOr bridge6 relayerA tx6

end PrivacyBridge

/-! ## Theorems -/

/-- C2: `calculate_output_amount` does not compute the spec's formula
`floor(amountInAfterFee*997*reserveOut / (reserveIn*1000 + amountInAfterFee*997))`:
at the spec's own example (`reserveIn = 1000`, `reserveOut = 1000`,
`amountIn = 100` after a zero protocol fee) the code divides
`amount_in * 997` by `1000` first and reuses that floored value in a
denominator still scaled by `1000`, returning `0` where the claimed formula
gives `90`. -/
theorem calculate_output_amount_diverges_from_spec :
    ConfidentialSwap.calculate_output_amount 100 1000 1000 = .ok 0 ∧
    ConfidentialSwap.amountOutSpecFormula 100 1000 1000 = 90 ∧ (0 : Nat) ≠ 90 :=
  ⟨rfl, rfl, by decide⟩

/-- C4: monetary narrowing is not overflow-checked.  For a subsequent
provider with `total_supply = 2^32`, reserve-commitment first bytes `1`,
and deposits of `2^32 + 1` on both sides, the exact minted-liquidity
minimum is `2^64 + 2^32`, which exceeds the `u64` range; `add_liquidity`
does not fail with an arithmetic error but silently truncates it with
`as u64` and succeeds, minting `2^32`. -/
theorem add_liquidity_truncates_minted_silently :
    (ConfidentialSwap.add_liquidity ConfidentialSwap.cfgSwap0
        ConfidentialSwap.pool4 ConfidentialSwap.pos0 55 9
        4294967297 4294967297 ConfidentialSwap.oneCommit
        ConfidentialSwap.oneCommit ConfidentialSwap.bp0
        ConfidentialSwap.bp0).map
      (fun o => (o.minted, o.pool.total_supply)) = .ok (4294967296, 8589934592) ∧
    U64LIM ≤ ConfidentialSwap.subsequentLiquidityExact
        4294967297 4294967297 4294967296 1 1 :=
  ⟨rfl, by decide⟩

/-- C5 counterexample: the subsequent-provider minted liquidity is not
computed from the pool's actual token reserves.  For supply `1000` and
deposit `(100, 200)` the claim (and the spec's example, with actual
reserves `(1000, 2000)`) asserts minted liquidity `100`; the code divides
by the first bytes of the reserve commitments — here `232` and `208`,
single bytes, so the value `1000` is not even representable — and mints
`431`. -/
theorem add_liquidity_minted_not_from_actual_reserves :
    (ConfidentialSwap.add_liquidity ConfidentialSwap.cfgSwap0
        ConfidentialSwap.pool5 ConfidentialSwap.pos0 55 9 100 200
        ConfidentialSwap.oneCommit ConfidentialSwap.oneCommit
        ConfidentialSwap.bp0 ConfidentialSwap.bp0).map
      (fun o => o.minted) = .ok 431 ∧
    ConfidentialSwap.liquidityFromActualReserves 100 200 1000 1000 2000 = 100 ∧
    (431 : Nat) ≠ 100 :=
  ⟨rfl, rfl, by decide⟩

/-- C6 counterexample: `relay_transaction` is not idempotent after the
`Relayed` transition.  Under `min_confirmations = 1`, a freshly locked
transaction reaches `Relayed` with one confirmation after one relay, and a
further relay call from the same active relayer fails with `InvalidState`
instead of incrementing the count. -/
theorem relay_transaction_fails_after_relayed :
    PrivacyBridge.tx6r.state = .Relayed ∧
    PrivacyBridge.tx6r.confirmations = 1 ∧
    PrivacyBridge.relay_transaction PrivacyBridge.bridge6
      PrivacyBridge.relayerA PrivacyBridge.tx6r = .error .InvalidState :=
  ⟨rfl, rfl, rfl⟩

/-- C1: a second `unlock_assets` presenting an already-recorded nullifier
value does not fail with `NullifierUsed`.  The nullifier account is
created fresh (Anchor `init`) at a caller-chosen address on every call, so
its `used` flag is always `false`: after locking twice and unlocking the
first transaction with nullifier `7`, unlocking the second transaction
with the same nullifier value `7` and a fresh account address succeeds,
paying out twice (`total_unlocked = 200`) and recording the value `7` as
used in two separate accounts. -/
theorem second_unlock_with_used_nullifier_succeeds :
    (PrivacyBridge.doubleUnlockTrace.map
        fun s => s.bridge.total_unlocked) = .ok 200 ∧
    (PrivacyBridge.doubleUnlockTrace.map
        fun s => s.nullAccs.map fun p => (p.1, p.2.nullifier, p.2.used)) =
      .ok [(12, 7, true), (11, 7, true)] ∧
    (PrivacyBridge.doubleUnlockTrace.map
        fun s => s.txs.map fun p => p.2.state) =
      .ok [.Completed, .Completed] :=
  ⟨rfl, rfl, rfl⟩

/-- C9: both proof verifiers accept every input.  The structural checks of
`verify_range_proof` and `verify_proof` compare the lengths of fixed-size
byte arrays against their declared sizes, which hold by type, so both
return `Ok(true)` for every commitment, proof, nullifier, amount and range
bounds. -/
theorem verifiers_accept_every_input :
    (∀ (c : ConfidentialSwap.Commit32) (p : ConfidentialSwap.BulletproofProof)
        (lo hi : Nat),
      ConfidentialSwap.verify_range_proof c p lo hi = .ok true) ∧
    (∀ (p : PrivacyBridge.ZkProof) (c n a : Nat),
      PrivacyBridge.verify_proof p c n a = .ok true) := by
  constructor
  · intro c p lo hi
    simp [ConfidentialSwap.verify_range_proof, p.a.property, p.s.property,
      p.t1.property, p.t2.property]
  · intro p c n a
    simp [PrivacyBridge.verify_proof, p.a.property, p.b.property, p.c.property]

/-- C10: unguarded division by zero is reachable in both liquidity
operations.  After `create_pool` the reserve-commitment first byte is `0`;
a first provider supplying commitments with zero first bytes keeps it `0`,
and the next `add_liquidity` divides by it (Rust panic).  A freshly
created pool has `total_supply = 0`, and `remove_liquidity` divides by it
on any call the position balance covers. -/
theorem division_by_zero_reachable :
    ConfidentialSwap.c10trace = .error .DivByZeroPanic ∧
    ConfidentialSwap.c10removeTrace = .error .DivByZeroPanic ∧
    (ConfidentialSwap.create_pool ConfidentialSwap.cfgSwap0 11 12).map
      (fun o => (o.pool.reserve_a_commitment 0).val) = .ok 0 :=
  ⟨rfl, rfl, rfl⟩

/-- Helper: bind on a successful `Except` computation reduces. -/
theorem exceptBindOk {ε α β : Type} (a : α) (f : α → Except ε β) :
    (Except.ok a : Except ε α) >>= f = f a := rfl

/-- Helper: `verify_range_proof` accepts every input, since the length
checks hold by the fixed-size array types. -/
theorem verify_range_proof_eq_ok_true (c : ConfidentialSwap.Commit32)
    (p : ConfidentialSwap.BulletproofProof) (lo hi : Nat) :
    ConfidentialSwap.verify_range_proof c p lo hi = .ok true := by
  simp [ConfidentialSwap.verify_range_proof, p.a.property, p.s.property,
    p.t1.property, p.t2.property]

/-- Helper: `verify_proof` accepts every input, since the length checks
hold by the fixed-size array types. -/
theorem verify_proof_eq_ok_true (p : PrivacyBridge.ZkProof) (c n a : Nat) :
    PrivacyBridge.verify_proof p c n a = .ok true := by
  simp [PrivacyBridge.verify_proof, p.a.property, p.b.property, p.c.property]


/-- Helper: bind on a failed `Except` computation short-circuits. -/
theorem exceptBindErr {ε α β : Type} (e : ε) (f : α → Except ε β) :
    (Except.error e : Except ε α) >>= f = .error e := rfl

/-- Helper: a failed `Except` computation is not `isOk`. -/
theorem exceptErrorNotOk {ε α : Type} (e : ε) :
    (Except.error e : Except ε α).isOk = false := rfl

/-- C5 (amended): for every `add_liquidity` call on a pool with nonzero
total supply whose reserve-commitment first bytes are nonzero (a zero byte
aborts with the division-by-zero panic instead), the minted liquidity
equals `min(amountA*supply/cA0, amountB*supply/cB0)` truncated to 64 bits,
where `cA0`/`cB0` are the first bytes of the pool's reserve commitments —
not actual token reserves — and the call fails with `InsufficientLiquidity`
when that value is `0`. -/
theorem add_liquidity_subsequent_minted_from_bytes
    (config : ConfidentialSwap.SwapConfig) (pool : ConfidentialSwap.Pool)
    (position : ConfidentialSwap.LiquidityPosition)
    (poolId user aA aB : Nat) (cA cB : ConfidentialSwap.Commit32)
    (pA pB : ConfidentialSwap.BulletproofProof)
    (hpz : config.paused = false) (hini : pool.initialized = true)
    (hs : pool.total_supply ≠ 0)
    (hra : (pool.reserve_a_commitment 0).val ≠ 0)
    (hrb : (pool.reserve_b_commitment 0).val ≠ 0) :
    (ConfidentialSwap.subsequentLiquidityExact aA aB pool.total_supply
        (pool.reserve_a_commitment 0).val (pool.reserve_b_commitment 0).val
        % U64LIM = 0 →
      ConfidentialSwap.add_liquidity config pool position poolId user aA aB
        cA cB pA pB = .error .InsufficientLiquidity) ∧
    (∀ out, ConfidentialSwap.add_liquidity config pool position poolId user
        aA aB cA cB pA pB = .ok out →
      out.minted = ConfidentialSwap.subsequentLiquidityExact aA aB
        pool.total_supply (pool.reserve_a_commitment 0).val
        (pool.reserve_b_commitment 0).val % U64LIM) := by
  unfold ConfidentialSwap.add_liquidity
  simp only [hpz, hini, hs, verify_range_proof_eq_ok_true]
  simp [exceptBindOk, hra, hrb]
  constructor
  · intro h0 h1
    exact absurd h0 h1
  · intro out hout
    split at hout
    · exact absurd hout (by simp)
    · unfold ConfidentialSwap.addU64 at hout
      split at hout
      · rw [exceptBindOk] at hout
        split at hout
        · rw [exceptBindOk] at hout
          cases hout
          rfl
        · rw [exceptBindErr] at hout
          exact absurd hout (by simp)
      · rw [exceptBindErr] at hout
        exact absurd hout (by simp)

/-- Witness for the amended C5 theorem: on the concrete pool `pool5`
(supply `1000`, reserve-commitment first bytes `232` and `208`) a deposit
of `(0, 0)` has minted-liquidity value `0`, and the call fails with
`InsufficientLiquidity`. -/
theorem add_liquidity_subsequent_minted_from_bytes_witness :
    ConfidentialSwap.add_liquidity ConfidentialSwap.cfgSwap0
      ConfidentialSwap.pool5 ConfidentialSwap.pos0 55 9 0 0
      ConfidentialSwap.oneCommit ConfidentialSwap.oneCommit
      ConfidentialSwap.bp0 ConfidentialSwap.bp0 =
      .error .InsufficientLiquidity :=
  (add_liquidity_subsequent_minted_from_bytes ConfidentialSwap.cfgSwap0
    ConfidentialSwap.pool5 ConfidentialSwap.pos0 55 9 0 0
    ConfidentialSwap.oneCommit ConfidentialSwap.oneCommit
    ConfidentialSwap.bp0 ConfidentialSwap.bp0 rfl rfl (by decide) (by decide)
    (by decide)).1 (by decide)

/-- C6 (amended): a relay call from an active relayer on a `Locked`
transaction increments the confirmation count (under checked `u8`
arithmetic) and transitions to `Relayed` exactly when the new count
reaches `min_confirmations`; but once a transaction is `Relayed`, further
`relay_transaction` calls fail with `InvalidState` rather than continuing
to increment. -/
theorem relay_rejects_after_relayed_transition
    (bridge : PrivacyBridge.Bridge) (r : PrivacyBridge.Relayer)
    (tx : PrivacyBridge.BridgeTransaction)
    (ha : r.active = true) :
    (tx.state = .Relayed →
      PrivacyBridge.relay_transaction bridge r tx = .error .InvalidState) ∧
    (tx.state = .Locked → tx.confirmations + 1 < 256 →
      PrivacyBridge.relay_transaction bridge r tx =
        .ok { tx with confirmations := tx.confirmations + 1
                      state := if bridge.min_confirmations ≤ tx.confirmations + 1
                               then .Relayed else .Locked }) := by
  constructor
  · intro hst
    unfold PrivacyBridge.relay_transaction
    simp [ha, hst]
  · intro hst hc
    unfold PrivacyBridge.relay_transaction
    simp [ha, hst, PrivacyBridge.addU8, hc, exceptBindOk]

/-- Witness for the amended C6 theorem: the concrete relayed transaction
`tx6r` is rejected with `InvalidState` by a further relay call. -/
theorem relay_rejects_after_relayed_transition_witness :
    PrivacyBridge.relay_transaction PrivacyBridge.bridge6
      PrivacyBridge.relayerA PrivacyBridge.tx6r = .error .InvalidState :=
  (relay_rejects_after_relayed_transition PrivacyBridge.bridge6
    PrivacyBridge.relayerA PrivacyBridge.tx6r rfl).1 rfl

/-- C8: for every `execute_swap` call that passes the paused, owner and
already-executed checks, the timing gate fails with `RevealTooEarly` when
`now < commitTime + 60`, fails with `SwapExpired` when
`now > commitTime + 600`, and for every `now` in
`[commitTime + 60, commitTime + 600]` neither timing error is returned; in
particular, at the concrete state `swap8` (commit time `1000`, valid proof,
slippage bound `0`) the call at time `1300 = commitTime + 300` succeeds. -/
theorem execute_swap_timing_window
    (config : ConfidentialSwap.SwapConfig)
    (swap : ConfidentialSwap.SwapCommitment) (pool : ConfidentialSwap.Pool)
    (user : Nat) (now : Int) (amount_in min_amount_out : Nat)
    (proof : ConfidentialSwap.BulletproofProof)
    (hpz : config.paused = false) (ho : swap.user = user)
    (he : swap.executed = false) :
    (now < swap.timestamp + 60 →
      ConfidentialSwap.execute_swap config swap pool user now amount_in
        min_amount_out proof = .error .RevealTooEarly) ∧
    (swap.timestamp + 600 < now →
      ConfidentialSwap.execute_swap config swap pool user now amount_in
        min_amount_out proof = .error .SwapExpired) ∧
    (swap.timestamp + 60 ≤ now → now ≤ swap.timestamp + 600 →
      ConfidentialSwap.execute_swap config swap pool user now amount_in
          min_amount_out proof ≠ .error .RevealTooEarly ∧
        ConfidentialSwap.execute_swap config swap pool user now amount_in
          min_amount_out proof ≠ .error .SwapExpired) ∧
    (ConfidentialSwap.execute_swap ConfidentialSwap.cfgSwap0
        ConfidentialSwap.swap8 ConfidentialSwap.pool8 7 1300 100 0
        ConfidentialSwap.bp0).isOk = true := by
  unfold ConfidentialSwap.execute_swap
  simp only [hpz, ho, he, verify_range_proof_eq_ok_true]
  refine ⟨?_, ?_, ?_, by decide⟩
  · intro h1
    simp [h1]
  · intro h2
    have h1n : ¬ now < swap.timestamp + 60 := by omega
    simp [h1n, h2]
  · intro h1 h2
    have h1n : ¬ now < swap.timestamp + 60 := not_lt.mpr h1
    have h2n : ¬ swap.timestamp + 600 < now := not_lt.mpr h2
    simp only [h1n, h2n, ite_false, if_false]
    simp [exceptBindOk]
    constructor
    all_goals
      intro hbad
      unfold ConfidentialSwap.subU64 at hbad
      split at hbad
      case' isTrue =>
        rw [exceptBindOk] at hbad
        unfold ConfidentialSwap.calculate_output_amount at hbad
        dsimp only [] at hbad
        split at hbad
        case' isTrue => rw [exceptBindErr] at hbad; simp at hbad
        case' isFalse =>
          rw [exceptBindOk] at hbad
          split at hbad
          case' isTrue => simp at hbad
          case' isFalse => simp at hbad
      case' isFalse => rw [exceptBindErr] at hbad; simp at hbad

/-- Witness for the C8 theorem: at the concrete state `swap8` (commit time
`1000`), the call at time `1059 = commitTime + 59` fails `RevealTooEarly`
and the call at time `1601 = commitTime + 601` fails `SwapExpired`. -/
theorem execute_swap_timing_window_witness :
    ConfidentialSwap.execute_swap ConfidentialSwap.cfgSwap0
        ConfidentialSwap.swap8 ConfidentialSwap.pool8 7 1059 100 0
        ConfidentialSwap.bp0 = .error .RevealTooEarly ∧
      ConfidentialSwap.execute_swap ConfidentialSwap.cfgSwap0
        ConfidentialSwap.swap8 ConfidentialSwap.pool8 7 1601 100 0
        ConfidentialSwap.bp0 = .error .SwapExpired :=
  ⟨(execute_swap_timing_window ConfidentialSwap.cfgSwap0
      ConfidentialSwap.swap8 ConfidentialSwap.pool8 7 1059 100 0
      ConfidentialSwap.bp0 rfl rfl rfl).1 (by decide),
   (execute_swap_timing_window ConfidentialSwap.cfgSwap0
      ConfidentialSwap.swap8 ConfidentialSwap.pool8 7 1601 100 0
      ConfidentialSwap.bp0 rfl rfl rfl).2.1 (by decide)⟩

/-- Helper: one relay call (successful or not) preserves the invariant
that a transaction still in the `Locked` state has strictly fewer
confirmations than the configured minimum. -/
theorem relayOr_pres (bridge : PrivacyBridge.Bridge)
    (r : PrivacyBridge.Relayer) (tx : PrivacyBridge.BridgeTransaction)
    (htx : tx.state = .Locked →
      tx.confirmations < bridge.min_confirmations) :
    (PrivacyBridge.relayOr bridge r tx).state = .Locked →
      (PrivacyBridge.relayOr bridge r tx).confirmations <
        bridge.min_confirmations := by
  by_cases hact : r.active
  · by_cases hst : tx.state = .Locked
    · by_cases hov : tx.confirmations + 1 < 256
      · by_cases hm : bridge.min_confirmations ≤ tx.confirmations + 1
        · simp [PrivacyBridge.relayOr, PrivacyBridge.relay_transaction,
            PrivacyBridge.addU8, hact, hst, hov, hm, exceptBindOk]
        · simp [PrivacyBridge.relayOr, PrivacyBridge.relay_transaction,
            PrivacyBridge.addU8, hact, hst, hov, hm, exceptBindOk]
          omega
      · simp [PrivacyBridge.relayOr, PrivacyBridge.relay_transaction,
          PrivacyBridge.addU8, hact, hst, hov, exceptBindErr]
        exact htx hst
    · simp [PrivacyBridge.relayOr, PrivacyBridge.relay_transaction, hact, hst]
  · simp [PrivacyBridge.relayOr, PrivacyBridge.relay_transaction, hact]
    exact htx

/-- Helper: any sequence of relay calls preserves the `Locked` → count
below minimum invariant. -/
theorem applyRelays_pres (bridge : PrivacyBridge.Bridge) :
    ∀ (rs : List PrivacyBridge.Relayer) (tx : PrivacyBridge.BridgeTransaction),
      (tx.state = .Locked → tx.confirmations < bridge.min_confirmations) →
      ((PrivacyBridge.applyRelays bridge rs tx).state = .Locked →
        (PrivacyBridge.applyRelays bridge rs tx).confirmations <
          bridge.min_confirmations)
  | [], _, htx => htx
  | r :: rs, tx, htx => by
      have hrec := applyRelays_pres bridge rs (PrivacyBridge.relayOr bridge r tx)
        (relayOr_pres bridge r tx htx)
      simpa [PrivacyBridge.applyRelays, List.foldl] using hrec

/-- C3: for a bridge configured with `min_confirmations ≥ 1`, no sequence
of `lock_assets` and `relay_transaction` operations yields a transaction
on which `unlock_assets` can succeed: a lock creates the transaction
`Locked` with zero confirmations, relaying moves it to `Relayed` exactly
when the count reaches the minimum (so a `Locked` transaction always has
fewer confirmations than the minimum), and the unlock requires the
transaction to still be `Locked` with at least the minimum count, so it
fails for every proof, nullifier, account and time. -/
theorem bridge_full_confirmation_unlock_unreachable
    (bridge : PrivacyBridge.Bridge) (h : 1 ≤ bridge.min_confirmations)
    (sender tc rc net : Nat) (t0 : Int)
    (rs : List PrivacyBridge.Relayer)
    (nullAccs : List (Nat × PrivacyBridge.NullifierAccount))
    (txAddr nullAddr : Nat) (proof : PrivacyBridge.ZkProof)
    (nullifier : Nat) (now : Int) :
    (PrivacyBridge.unlock_assets
        ⟨bridge,
         [(txAddr, PrivacyBridge.applyRelays bridge rs
            (PrivacyBridge.lockTxRecord sender tc rc net t0))],
         nullAccs⟩
        txAddr nullAddr proof nullifier now).isOk = false := by
  have hP := applyRelays_pres bridge rs
    (PrivacyBridge.lockTxRecord sender tc rc net t0)
    (fun _ => by simpa [PrivacyBridge.lockTxRecord] using h)
  unfold PrivacyBridge.unlock_assets
  simp only [alookup, eq_self_iff_true, ite_true]
  by_cases hn : (alookup nullAccs nullAddr).isSome
  · simp [hn, exceptErrorNotOk]
  · by_cases hpz : bridge.paused
    · simp [hn, hpz, exceptErrorNotOk]
    · by_cases hst :
        (PrivacyBridge.applyRelays bridge rs
          (PrivacyBridge.lockTxRecord sender tc rc net t0)).state =
          PrivacyBridge.TransactionState.Locked
      · have hc := hP hst
        simp [hn, hpz, hst, hc, exceptErrorNotOk]
      · simp [hn, hpz, hst, exceptErrorNotOk]

/-- Witness for the C3 theorem: under the concrete bridge `bridge6`
(`min_confirmations = 1`), a locked transaction followed by one relay
cannot be unlocked. -/
theorem bridge_full_confirmation_unlock_unreachable_witness :
    (PrivacyBridge.unlock_assets
        ⟨PrivacyBridge.bridge6,
         [(1, PrivacyBridge.applyRelays PrivacyBridge.bridge6
            [PrivacyBridge.relayerA]
            (PrivacyBridge.lockTxRecord 10 2 5 100 1000))],
         []⟩
        1 11 PrivacyBridge.zkProof0 7 1010).isOk = false :=
  bridge_full_confirmation_unlock_unreachable PrivacyBridge.bridge6
    (by decide) 10 2 5 100 1000 [PrivacyBridge.relayerA] [] 1 11
    PrivacyBridge.zkProof0 7 1010
